import Mathlib

/-!
Shallow embedding of the `tiledb::rs` C++ glue layer of the tiledb-rs
repository (the `src/tiledb/sys2/cpp` sources), together with a model of the
engine-side (TileDB C ABI) state it calls into.  Engine entry points that are
external to the repository are modelled explicitly; wrapper functions are
translated line by line from the `.cc` sources.  Fallible C++ code (functions
that may `throw TileDBError`) is embedded in `Except String`.
-/

namespace TileDBRs

/-! ### Engine status codes (tiledb.h) -/

def TILEDB_OK : Int := 0

def TILEDB_ERR : Int := -1

/-! ### Context and error handling (context.cc)

The engine context carries a last-error slot (`tiledb_ctx_get_last_error`).
`none` models a null `tiledb_error_t*`. -/

structure CtxState where
  lastError : Option String
deriving Repr, DecidableEq

/-- Engine model: `tiledb_ctx_get_last_error` returns `TILEDB_OK` and hands
back the context's error object handle (null when no error is recorded). -/
def tiledb_ctx_get_last_error (st : CtxState) : Int × Option String :=
  (TILEDB_OK, st.lastError)

/-- Engine model: `tiledb_error_message` fails on a null error handle and
otherwise yields the recorded message. -/
def tiledb_error_message : Option String → Int × Option String
  | none => (TILEDB_ERR, none)
  | some msg => (TILEDB_OK, some msg)

def nonRetrievableMsg : String :=
  "[TileDB::C++API] Error: Non-retrievable error occurred"

/-- `Context::get_last_error_message` (context.cc lines 88-114): fetch the
error object, then its message, falling back to a fixed string when either
engine call fails. -/
def Context.get_last_error_message (st : CtxState) : String :=
  let (rc, err) := tiledb_ctx_get_last_error st
  if rc ≠ TILEDB_OK then nonRetrievableMsg
  else
    let (rc2, msg) := tiledb_error_message err
    if rc2 ≠ TILEDB_OK then nonRetrievableMsg
    else msg.getD nonRetrievableMsg

/-- `Context::handle_error` (context.cc lines 32-38): return on `TILEDB_OK`,
otherwise throw `TileDBError(get_last_error_message())`. -/
def Context.handle_error (st : CtxState) (rc : Int) : Except String Unit :=
  if rc = TILEDB_OK then Except.ok ()
  else Except.error (Context.get_last_error_message st)

/-! ### Config (config.cc)

The engine config handle is external to the repository.  Its state is a
string-to-string parameter map plus the set of keys the engine rejects with an
out-of-band error object. -/

structure ConfigState where
  params : List (String × String)
  badKeys : List String
deriving Repr, DecidableEq

def ConfigState.insert (cfg : ConfigState) (key val : String) : ConfigState :=
  { cfg with params := (key, val) :: cfg.params.filter (fun p => p.1 ≠ key) }

/-- Modelled from the spec: the engine config (`tiledb_config_t`) is a
"mapping of string keys to string values" (spec §3); `tiledb_config_get`
returns the value for the key together with an out-of-band error object,
which is set when the engine rejects the key (spec §4.2). -/
def tiledb_config_get (cfg : ConfigState) (key : String) :
    Option String × Option String :=
  if cfg.badKeys.contains key then
    (none, some ("Invalid parameter " ++ key))
  else
    (cfg.params.lookup key, none)

/-- Modelled from the spec: `tiledb_config_set` stores the value under the
key, signalling rejection of a bad key via the out-of-band error object
(spec §3, §4.2). -/
def tiledb_config_set (cfg : ConfigState) (key val : String) :
    ConfigState × Option String :=
  if cfg.badKeys.contains key then
    (cfg, some ("Invalid parameter " ++ key))
  else
    (cfg.insert key val, none)

/-- `check_config_error` (config.cc lines 10-18): throw
`TileDBError("Config Error: " + msg)` when the engine handed back a non-null
error object. -/
def check_config_error : Option String → Except String Unit
  | none => Except.ok ()
  | some msg => Except.error ("Config Error: " ++ msg)

/-- `Config::get` (config.cc lines 29-41). -/
def Config.get (cfg : ConfigState) (key : String) : Except String String :=
  let (val, err) := tiledb_config_get cfg key
  match check_config_error err with
  | Except.error e => Except.error e
  | Except.ok () =>
    match val with
    | none => Except.error ("Config Error: Invalid parameter " ++ key)
    | some v => Except.ok v

/-- `Config::contains` (config.cc lines 43-50): calls `tiledb_config_get`,
never consults the error object, and answers from the nullness of the
returned value alone. -/
def Config.contains (cfg : ConfigState) (key : String) : Except String Bool :=
  let (val, _err) := tiledb_config_get cfg key
  Except.ok val.isSome

/-- `Config::set` (config.cc lines 52-58). -/
def Config.set (cfg : ConfigState) (key val : String) :
    Except String ConfigState :=
  let (cfg2, err) := tiledb_config_set cfg key val
  match check_config_error err with
  | Except.error e => Except.error e
  | Except.ok () => Except.ok cfg2

/-! ### Schema and SchemaBuilder (schema.cc)

Engine-side array schemas are mutable objects reached through handles; a heap
maps handle ids to schema states.  `SchemaBuilder::build` (schema.cc lines
165-169) constructs the returned `Schema` from the builder's own
`shared_ptr` (`std::make_shared<Schema>(ctx_, schema_)`), so the view and the
builder address the same handle. -/

structure EngineSchema where
  hasDomain : Bool
  capacity : Nat
  allowsDups : Bool
  cellOrder : Int
  tileOrder : Int
  attributes : List Nat
  enumerations : List Nat
  coordsFilters : Nat
  offsetsFilters : Nat
  validityFilters : Nat
deriving Repr, DecidableEq

structure SchemaHeap where
  schemas : List (Nat × EngineSchema)
deriving Repr, DecidableEq

def SchemaHeap.get (h : SchemaHeap) (id : Nat) : Option EngineSchema :=
  h.schemas.lookup id

def SchemaHeap.put (h : SchemaHeap) (id : Nat) (s : EngineSchema) : SchemaHeap :=
  ⟨(id, s) :: h.schemas.filter (fun p => p.1 ≠ id)⟩

/-- Engine model: a schema setter entry point updates the pointed-to schema
in place and reports a status code. -/
def engineSchemaUpdate (h : SchemaHeap) (id : Nat)
    (f : EngineSchema → EngineSchema) : SchemaHeap × Int :=
  match h.get id with
  | none => (h, TILEDB_ERR)
  | some s => (h.put id (f s), TILEDB_OK)

def tiledb_array_schema_set_capacity (h : SchemaHeap) (id : Nat)
    (capacity : Nat) : SchemaHeap × Int :=
  engineSchemaUpdate h id (fun s => { s with capacity := capacity })

def tiledb_array_schema_set_cell_order (h : SchemaHeap) (id : Nat)
    (order : Int) : SchemaHeap × Int :=
  engineSchemaUpdate h id (fun s => { s with cellOrder := order })

def tiledb_array_schema_set_tile_order (h : SchemaHeap) (id : Nat)
    (order : Int) : SchemaHeap × Int :=
  engineSchemaUpdate h id (fun s => { s with tileOrder := order })

def tiledb_array_schema_set_domain (h : SchemaHeap) (id : Nat) :
    SchemaHeap × Int :=
  engineSchemaUpdate h id (fun s => { s with hasDomain := true })

def tiledb_array_schema_add_attribute (h : SchemaHeap) (id : Nat)
    (attr : Nat) : SchemaHeap × Int :=
  engineSchemaUpdate h id (fun s => { s with attributes := s.attributes ++ [attr] })

def tiledb_array_schema_add_enumeration (h : SchemaHeap) (id : Nat)
    (enmr : Nat) : SchemaHeap × Int :=
  engineSchemaUpdate h id
    (fun s => { s with enumerations := s.enumerations ++ [enmr] })

def tiledb_array_schema_set_coords_filter_list (h : SchemaHeap) (id : Nat)
    (filters : Nat) : SchemaHeap × Int :=
  engineSchemaUpdate h id (fun s => { s with coordsFilters := filters })

def tiledb_array_schema_set_offsets_filter_list (h : SchemaHeap) (id : Nat)
    (filters : Nat) : SchemaHeap × Int :=
  engineSchemaUpdate h id (fun s => { s with offsetsFilters := filters })

def tiledb_array_schema_set_validity_filter_list (h : SchemaHeap) (id : Nat)
    (filters : Nat) : SchemaHeap × Int :=
  engineSchemaUpdate h id (fun s => { s with validityFilters := filters })

def tiledb_array_schema_get_capacity (h : SchemaHeap) (id : Nat) :
    Int × Nat :=
  match h.get id with
  | none => (TILEDB_ERR, 0)
  | some s => (TILEDB_OK, s.capacity)

/-- Modelled from the spec: `tiledb_array_schema_check` (engine) validates
the schema; "A Schema built without a Domain fails `build()`/check"
(spec §8), so the check reports non-success exactly when no domain has been
set. -/
def tiledb_array_schema_check (h : SchemaHeap) (id : Nat) : Int :=
  match h.get id with
  | none => TILEDB_ERR
  | some s => if s.hasDomain then TILEDB_OK else TILEDB_ERR

/-- The wrapper `Schema` view holds a context reference and a schema handle
(schema.cc lines 24-28). -/
structure Schema where
  handle : Nat
deriving Repr, DecidableEq

/-- The wrapper `SchemaBuilder` holds a context reference and a schema handle
(schema.cc lines 156-163). -/
structure SchemaBuilder where
  handle : Nat
deriving Repr, DecidableEq

/-- `SchemaBuilder::build` (schema.cc lines 165-169): run the engine schema
check through `handle_error`, then return a `Schema` sharing the builder's
own schema pointer. -/
def SchemaBuilder.build (st : CtxState) (h : SchemaHeap) (b : SchemaBuilder) :
    Except String Schema := do
  Context.handle_error st (tiledb_array_schema_check h b.handle)
  Except.ok ⟨b.handle⟩

/-- `SchemaBuilder::set_capacity` (schema.cc lines 171-174). -/
def SchemaBuilder.set_capacity (st : CtxState) (h : SchemaHeap)
    (b : SchemaBuilder) (capacity : Nat) : Except String SchemaHeap := do
  let (h2, rc) := tiledb_array_schema_set_capacity h b.handle capacity
  Context.handle_error st rc
  Except.ok h2

/-- `SchemaBuilder::set_domain` (schema.cc lines 193-196). -/
def SchemaBuilder.set_domain (st : CtxState) (h : SchemaHeap)
    (b : SchemaBuilder) : Except String SchemaHeap := do
  let (h2, rc) := tiledb_array_schema_set_domain h b.handle
  Context.handle_error st rc
  Except.ok h2

/-- `Schema::capacity` (schema.cc lines 37-42). -/
def Schema.capacity (st : CtxState) (h : SchemaHeap) (s : Schema) :
    Except String Nat := do
  let (rc, capacity) := tiledb_array_schema_get_capacity h s.handle
  Context.handle_error st rc
  Except.ok capacity

/-! ### Query buffers (query.cc)

A `Buffer` is the managed growable buffer substituted for a raw
pointer+length pair.  The engine query keeps, per field name, three distinct
buffer slots (data, offsets, validity), one per C entry point
(`tiledb_query_set_data_buffer`, `tiledb_query_set_offsets_buffer`,
`tiledb_query_set_validity_buffer`). -/

structure Buffer where
  bytes : List Nat
deriving Repr, DecidableEq

def Buffer.len (b : Buffer) : Nat := b.bytes.length

structure FieldBinding where
  data : Option Buffer
  offsets : Option Buffer
  validity : Option Buffer
deriving Repr, DecidableEq

def emptyBinding : FieldBinding := ⟨none, none, none⟩

structure EngineQuery where
  bindings : List (String × FieldBinding)
deriving Repr, DecidableEq

def EngineQuery.getBinding (q : EngineQuery) (name : String) : FieldBinding :=
  (q.bindings.lookup name).getD emptyBinding

def EngineQuery.setBinding (q : EngineQuery) (name : String)
    (fb : FieldBinding) : EngineQuery :=
  ⟨(name, fb) :: q.bindings.filter (fun p => p.1 ≠ name)⟩

/-- Engine model: `tiledb_query_set_data_buffer` binds the buffer to the
field's data slot. -/
def tiledb_query_set_data_buffer (q : EngineQuery) (name : String)
    (buf : Buffer) : EngineQuery × Int :=
  (q.setBinding name { q.getBinding name with data := some buf }, TILEDB_OK)

/-- Engine model: `tiledb_query_set_offsets_buffer` binds the buffer to the
field's offsets slot. -/
def tiledb_query_set_offsets_buffer (q : EngineQuery) (name : String)
    (buf : Buffer) : EngineQuery × Int :=
  (q.setBinding name { q.getBinding name with offsets := some buf }, TILEDB_OK)

/-- Engine model: `tiledb_query_set_validity_buffer` binds the buffer to the
field's validity slot. -/
def tiledb_query_set_validity_buffer (q : EngineQuery) (name : String)
    (buf : Buffer) : EngineQuery × Int :=
  (q.setBinding name { q.getBinding name with validity := some buf }, TILEDB_OK)

/-- The wrapper's per-field size cells (`sizes_` in query.h). -/
structure BufferSizes where
  data : Nat
  offsets : Nat
  validity : Nat
deriving Repr, DecidableEq

structure QuerySizes where
  sizes : List (String × BufferSizes)
deriving Repr, DecidableEq

def QuerySizes.get (sz : QuerySizes) (name : String) : BufferSizes :=
  (sz.sizes.lookup name).getD ⟨0, 0, 0⟩

def QuerySizes.put (sz : QuerySizes) (name : String) (s : BufferSizes) :
    QuerySizes :=
  ⟨(name, s) :: sz.sizes.filter (fun p => p.1 ≠ name)⟩

/-- `Query::set_data_buffer` (query.cc lines 79-91): record the length in the
field's data size cell, then call `tiledb_query_set_data_buffer`. -/
def Query.set_data_buffer (st : CtxState) (sz : QuerySizes) (q : EngineQuery)
    (name : String) (buf : Buffer) : Except String (QuerySizes × EngineQuery) := do
  let sz2 := sz.put name { sz.get name with data := buf.len }
  let (q2, rc) := tiledb_query_set_data_buffer q name buf
  Context.handle_error st rc
  Except.ok (sz2, q2)

/-- `Query::set_offsets_buffer` (query.cc lines 93-105): record the length in
the field's offsets size cell, then call `tiledb_query_set_data_buffer`
(query.cc line 99). -/
def Query.set_offsets_buffer (st : CtxState) (sz : QuerySizes)
    (q : EngineQuery) (name : String) (buf : Buffer) :
    Except String (QuerySizes × EngineQuery) := do
  let sz2 := sz.put name { sz.get name with offsets := buf.len }
  let (q2, rc) := tiledb_query_set_data_buffer q name buf
  Context.handle_error st rc
  Except.ok (sz2, q2)

/-- `Query::set_validity_buffer` (query.cc lines 107-119): record the length
in the field's validity size cell, then call `tiledb_query_set_data_buffer`
(query.cc line 113). -/
def Query.set_validity_buffer (st : CtxState) (sz : QuerySizes)
    (q : EngineQuery) (name : String) (buf : Buffer) :
    Except String (QuerySizes × EngineQuery) := do
  let sz2 := sz.put name { sz.get name with validity := buf.len }
  let (q2, rc) := tiledb_query_set_data_buffer q name buf
  Context.handle_error st rc
  Except.ok (sz2, q2)

/-! ### Query status (query_status.cc, query.cc) -/

def TILEDB_FAILED : Int := 0

def TILEDB_COMPLETED : Int := 1

def TILEDB_INPROGRESS : Int := 2

def TILEDB_INCOMPLETE : Int := 3

def TILEDB_UNINITIALIZED : Int := 4

def TILEDB_INITIALIZED : Int := 5

inductive QueryStatus where
  | Failed
  | Completed
  | InProgress
  | Incomplete
  | Uninitialized
  | Initialized
deriving Repr, DecidableEq

/-- `to_rs_query_status` (query_status.cc lines 29-46): total on the engine's
six status constants, throwing on any other value. -/
def to_rs_query_status (status : Int) : Except String QueryStatus :=
  if status = TILEDB_FAILED then Except.ok QueryStatus.Failed
  else if status = TILEDB_COMPLETED then Except.ok QueryStatus.Completed
  else if status = TILEDB_INPROGRESS then Except.ok QueryStatus.InProgress
  else if status = TILEDB_INCOMPLETE then Except.ok QueryStatus.Incomplete
  else if status = TILEDB_UNINITIALIZED then Except.ok QueryStatus.Uninitialized
  else if status = TILEDB_INITIALIZED then Except.ok QueryStatus.Initialized
  else Except.error "Invalid tiledb_layout_t for TileOrder conversion."

/-- `Query::submit` (query.cc lines 121-123): forward the engine's status
code from `tiledb_query_submit` to `handle_error` and nothing else. -/
def Query.submit (st : CtxState) (engineRc : Int) : Except String Unit :=
  Context.handle_error st engineRc

/-- `Query::status` (query.cc lines 65-70): fetch the engine status through
`handle_error`, then convert it with `to_rs_query_status`. -/
def Query.status (st : CtxState) (engineRc : Int) (engineStatus : Int) :
    Except String QueryStatus := do
  Context.handle_error st engineRc
  to_rs_query_status engineStatus

/-- Modelled from the spec: `tiledb_query_submit` (engine) on a read whose
buffers are too small for the full result returns `TILEDB_OK` and leaves the
query status `TILEDB_INCOMPLETE` — "submit() may return Incomplete when
buffers are too small for the full result — this is not a failure"
(spec §4.5, §7). The pair is (status code, engine query status). -/
def tiledb_query_submit_undersized : Int × Int :=
  (TILEDB_OK, TILEDB_INCOMPLETE)

/-! ### Array non-empty domain (array.cc)

Engine-side array state, as far as the non-empty-domain entry points see it:
per dimension a name, a datatype tag, whether any data was ever written, and
the fixed and variable-size bounds of the written data. -/

structure EngineDim where
  name : String
  datatype : Nat
  written : Bool
  lo : Nat
  hi : Nat
  varLo : List Nat
  varHi : List Nat
deriving Repr, DecidableEq

structure EngineArray where
  dims : List EngineDim
deriving Repr, DecidableEq

def EngineArray.dimAt (a : EngineArray) (i : Nat) : Option EngineDim :=
  a.dims.get? i

def EngineArray.dimNamed (a : EngineArray) (name : String) : Option EngineDim :=
  a.dims.find? (fun d => d.name = name)

/-- Modelled from the spec: `tiledb_array_get_non_empty_domain_from_index`
(engine) writes the written-data bounds and sets the is-empty out-flag to 1
exactly when no data was ever written for that dimension — "an empty domain
is not an error — it signals no written data yet" (spec §4.4, §8).  The
result is (status code, bounds, is-empty flag). -/
def tiledb_array_get_non_empty_domain_from_index (a : EngineArray) (i : Nat) :
    Int × (Nat × Nat) × Int :=
  match a.dimAt i with
  | none => (TILEDB_ERR, (0, 0), 0)
  | some d =>
    if d.written then (TILEDB_OK, (d.lo, d.hi), 0)
    else (TILEDB_OK, (0, 0), 1)

/-- Modelled from the spec: by-name form of the fixed-size non-empty-domain
engine entry point (spec §4.4, §8). -/
def tiledb_array_get_non_empty_domain_from_name (a : EngineArray)
    (name : String) : Int × (Nat × Nat) × Int :=
  match a.dimNamed name with
  | none => (TILEDB_ERR, (0, 0), 0)
  | some d =>
    if d.written then (TILEDB_OK, (d.lo, d.hi), 0)
    else (TILEDB_OK, (0, 0), 1)

/-- Modelled from the spec: the var-size size-probing engine entry point; the
is-empty flag has the same meaning as for the fixed-size form (spec §4.4,
§8).  The result is (status code, (lower size, upper size), is-empty flag). -/
def tiledb_array_get_non_empty_domain_var_size_from_index (a : EngineArray)
    (i : Nat) : Int × (Nat × Nat) × Int :=
  match a.dimAt i with
  | none => (TILEDB_ERR, (0, 0), 0)
  | some d =>
    if d.written then (TILEDB_OK, (d.varLo.length, d.varHi.length), 0)
    else (TILEDB_OK, (0, 0), 1)

/-- Modelled from the spec: by-name form of the var-size size probe
(spec §4.4, §8). -/
def tiledb_array_get_non_empty_domain_var_size_from_name (a : EngineArray)
    (name : String) : Int × (Nat × Nat) × Int :=
  match a.dimNamed name with
  | none => (TILEDB_ERR, (0, 0), 0)
  | some d =>
    if d.written then (TILEDB_OK, (d.varLo.length, d.varHi.length), 0)
    else (TILEDB_OK, (0, 0), 1)

/-- Modelled from the spec: the var-size bounds-fetching engine entry point
(spec §4.4, §8). The result is (status code, (lower bytes, upper bytes),
is-empty flag). -/
def tiledb_array_get_non_empty_domain_var_from_index (a : EngineArray)
    (i : Nat) : Int × (List Nat × List Nat) × Int :=
  match a.dimAt i with
  | none => (TILEDB_ERR, ([], []), 0)
  | some d =>
    if d.written then (TILEDB_OK, (d.varLo, d.varHi), 0)
    else (TILEDB_OK, ([], []), 1)

/-- Modelled from the spec: by-name form of the var-size bounds fetch
(spec §4.4, §8). -/
def tiledb_array_get_non_empty_domain_var_from_name (a : EngineArray)
    (name : String) : Int × (List Nat × List Nat) × Int :=
  match a.dimNamed name with
  | none => (TILEDB_ERR, ([], []), 0)
  | some d =>
    if d.written then (TILEDB_OK, (d.varLo, d.varHi), 0)
    else (TILEDB_OK, ([], []), 1)

/-- A managed buffer carrying its element datatype tag, standing for the Rust
`Buffer` used by the non-empty-domain wrappers. -/
structure TypedBuffer where
  datatype : Nat
  bytes : List Nat
deriving Repr, DecidableEq

/-- `Buffer::cpp_is_compatible_type`: the buffer's element datatype must
match the dimension's datatype tag. -/
def TypedBuffer.cpp_is_compatible_type (b : TypedBuffer) (dt : Nat) : Bool :=
  b.datatype == dt

/-- The datatype of dimension `i`, reached in array.cc via
`schema()->domain()->dimension_from_index(index)->datatype()`, each step an
engine getter wrapped in `handle_error`. -/
def dimensionDatatypeFromIndex (st : CtxState) (a : EngineArray) (i : Nat) :
    Except String Nat :=
  match a.dimAt i with
  | none => Except.error (Context.get_last_error_message st)
  | some d => Except.ok d.datatype

/-- The datatype of the dimension named `name`, reached in array.cc via
`schema()->domain()->dimension_from_name(name)->datatype()`. -/
def dimensionDatatypeFromName (st : CtxState) (a : EngineArray)
    (name : String) : Except String Nat :=
  match a.dimNamed name with
  | none => Except.error (Context.get_last_error_message st)
  | some d => Except.ok d.datatype

/-- `Array::non_empty_domain_from_index` (array.cc lines 138-152): check the
buffer datatype, resize to two elements, call the engine, and return
`empty != 0`. -/
def Array.non_empty_domain_from_index (st : CtxState) (a : EngineArray)
    (i : Nat) (buffer : TypedBuffer) : Except String (TypedBuffer × Bool) := do
  let dt ← dimensionDatatypeFromIndex st a i
  if ¬ buffer.cpp_is_compatible_type dt then
    Except.error "Non-empty domain buffer was allocated with the wrong datatype."
  else do
    let (rc, bounds, empty) := tiledb_array_get_non_empty_domain_from_index a i
    Context.handle_error st rc
    Except.ok ({ buffer with bytes := [bounds.1, bounds.2] }, empty ≠ 0)

/-- `Array::non_empty_domain_from_name` (array.cc lines 154-173). -/
def Array.non_empty_domain_from_name (st : CtxState) (a : EngineArray)
    (name : String) (buffer : TypedBuffer) :
    Except String (TypedBuffer × Bool) := do
  let dt ← dimensionDatatypeFromName st a name
  if ¬ buffer.cpp_is_compatible_type dt then
    Except.error "Non-empty domain buffer was allocated with the wronge datatype."
  else do
    let (rc, bounds, empty) := tiledb_array_get_non_empty_domain_from_name a name
    Context.handle_error st rc
    Except.ok ({ buffer with bytes := [bounds.1, bounds.2] }, empty ≠ 0)

/-- `Array::non_empty_domain_var_from_index` (array.cc lines 175-218): check
both buffer datatypes, probe the var sizes, and — exactly as the source does —
return `false` early when the is-empty flag is set (array.cc lines 202-204);
otherwise resize both buffers, fetch the bounds, and return `empty != 0` from
the second call. -/
def Array.non_empty_domain_var_from_index (st : CtxState) (a : EngineArray)
    (i : Nat) (lower upper : TypedBuffer) :
    Except String (TypedBuffer × TypedBuffer × Bool) := do
  let dt ← dimensionDatatypeFromIndex st a i
  if ¬ lower.cpp_is_compatible_type dt then
    Except.error
      "Non-empty domain lower buffer was allocated with the wronge datatype."
  else if ¬ upper.cpp_is_compatible_type dt then
    Except.error
      "Non-empty domain upper buffer was allocated with the wronge datatype."
  else do
    let (rc, _sizes, empty) :=
      tiledb_array_get_non_empty_domain_var_size_from_index a i
    Context.handle_error st rc
    if empty ≠ 0 then
      Except.ok (lower, upper, false)
    else do
      let (rc2, bounds, empty2) :=
        tiledb_array_get_non_empty_domain_var_from_index a i
      Context.handle_error st rc2
      Except.ok ({ lower with bytes := bounds.1 },
        { upper with bytes := bounds.2 }, empty2 ≠ 0)

/-- `Array::non_empty_domain_var_from_name` (array.cc lines 220-264), with
the same early `return false` on the is-empty flag (array.cc lines 248-250). -/
def Array.non_empty_domain_var_from_name (st : CtxState) (a : EngineArray)
    (name : String) (lower upper : TypedBuffer) :
    Except String (TypedBuffer × TypedBuffer × Bool) := do
  let dt ← dimensionDatatypeFromName st a name
  if ¬ lower.cpp_is_compatible_type dt then
    Except.error
      "Non-empty domain lower buffer was allocated with the wronge datatype."
  else if ¬ upper.cpp_is_compatible_type dt then
    Except.error
      "Non-empty domain upper buffer was allocated with the wronge datatype."
  else do
    let (rc, _sizes, empty) :=
      tiledb_array_get_non_empty_domain_var_size_from_name a name
    Context.handle_error st rc
    if empty ≠ 0 then
      Except.ok (lower, upper, false)
    else do
      let (rc2, bounds, empty2) :=
        tiledb_array_get_non_empty_domain_var_from_name a name
      Context.handle_error st rc2
      Except.ok ({ lower with bytes := bounds.1 },
        { upper with bytes := bounds.2 }, empty2 ≠ 0)

/-! ### Fragment URI list forwarding (array.cc)

`ArrayContext::consolidate_list`, `consolidate_list_with_config` and
`delete_fragments_list` construct `std::vector<std::string> c_uris(n)` and
`std::vector<const char*> c_uri_ptrs(n)` — each already holding `n`
default-constructed elements — and then `ArrayContext::rust_to_cpp`
(array.cc lines 481-492) appends with `push_back`.  A `const char*` is
modelled as `Option String` (`none` is a null pointer; a default-constructed
`std::string` yields a pointer to `""`). -/

/-- `ArrayContext::rust_to_cpp` (array.cc lines 481-492) applied to the two
pre-sized vectors: the first loop appends every input string to `c_uris`, the
second appends a pointer for every element of `c_uris` to `c_uri_ptrs`. -/
def ArrayContext.rust_to_cpp (rs_uris : List String)
    (c_uris : List String) (c_uri_ptrs : List (Option String)) :
    List String × List (Option String) :=
  let c_uris2 := c_uris ++ rs_uris
  let c_uri_ptrs2 := c_uri_ptrs ++ c_uris2.map some
  (c_uris2, c_uri_ptrs2)

/-- The fragment-URI argument vector handed to
`tiledb_array_consolidate_fragments` by `ArrayContext::consolidate_list`
(array.cc lines 396-408): the engine receives `c_uri_ptrs.data()` with count
`c_uri_ptrs.size()`, i.e. this list and its length. -/
def ArrayContext.consolidate_list_forwarded (uris : List String) :
    List (Option String) :=
  let c_uris0 : List String := List.replicate uris.length ""
  let c_uri_ptrs0 : List (Option String) := List.replicate uris.length none
  (ArrayContext.rust_to_cpp uris c_uris0 c_uri_ptrs0).2

/-- The fragment-URI argument vector handed to
`tiledb_array_consolidate_fragments` by
`ArrayContext::consolidate_list_with_config` (array.cc lines 410-423). -/
def ArrayContext.consolidate_list_with_config_forwarded (uris : List String) :
    List (Option String) :=
  let c_uris0 : List String := List.replicate uris.length ""
  let c_uri_ptrs0 : List (Option String) := List.replicate uris.length none
  (ArrayContext.rust_to_cpp uris c_uris0 c_uri_ptrs0).2

/-- The fragment-URI argument vector handed to
`tiledb_array_delete_fragments_list` by
`ArrayContext::delete_fragments_list` (array.cc lines 445-454). -/
def ArrayContext.delete_fragments_list_forwarded (uris : List String) :
    List (Option String) :=
  let c_uris0 : List String := List.replicate uris.length ""
  let c_uri_ptrs0 : List (Option String) := List.replicate uris.length none
  (ArrayContext.rust_to_cpp uris c_uris0 c_uri_ptrs0).2

/-! ### Filter options (filter.cc)

`tiledb_filter_set_option(ctx, filter, option, value)` reads the option value
from the memory its `const void* value` argument addresses.  To follow the
indirection in `FilterBuilder::set_option`, stack memory is modelled as a map
from addresses to words, where a word is either option data or a stored
pointer (an address).  Reading an int32 option through a pointer that
addresses a stored pointer yields that pointer's address bits, truncated to
32 bits — the C reinterpretation the engine performs. -/

def TILEDB_COMPRESSION_LEVEL : Nat := 0

inductive Word where
  | data (v : Int)
  | addr (a : Nat)
deriving Repr, DecidableEq

abbrev Mem := List (Nat × Word)

/-- What the engine reads when it dereferences `p` as an int32 option
value. -/
def readAsInt32 (m : Mem) (p : Nat) : Int :=
  match m.lookup p with
  | some (Word.data v) => v
  | some (Word.addr a) => Int.ofNat (a % 2 ^ 32)
  | none => 0

structure EngineFilter where
  ftype : Nat
  options : List (Nat × Int)
deriving Repr, DecidableEq

/-- Modelled from the spec/C ABI: `tiledb_filter_set_option` (engine) stores,
in the filter's slot for `opt`, the option value read from the memory that
the `value` pointer `p` addresses (spec §4.6, §6). -/
def tiledb_filter_set_option (f : EngineFilter) (m : Mem) (opt : Nat)
    (p : Nat) : EngineFilter × Int :=
  ({ f with options := (opt, readAsInt32 m p) :: f.options.filter (fun q => q.1 ≠ opt) },
    TILEDB_OK)

/-- Modelled from the spec/C ABI: `tiledb_filter_get_option` (engine) writes
the stored option value for `opt` through the caller's out pointer
(spec §4.6, §6). -/
def tiledb_filter_get_option (f : EngineFilter) (opt : Nat) : Int × Int :=
  match f.options.lookup opt with
  | some v => (TILEDB_OK, v)
  | none => (TILEDB_ERR, 0)

/-- `FilterBuilder::set_option` (filter.cc lines 157-160): its parameter
`void* val` holds the address `val` passed by the caller and itself lives at
stack address `valAddr`; the source calls the engine with `&val` — the
address of this pointer parameter — so the engine dereferences `valAddr`,
not `val`. -/
def FilterBuilder.set_option (st : CtxState) (f : EngineFilter) (m : Mem)
    (opt : Nat) (val : Nat) (valAddr : Nat) : Except String EngineFilter := do
  let m2 : Mem := (valAddr, Word.addr val) :: m
  let (f2, rc) := tiledb_filter_set_option f m2 opt valAddr
  Context.handle_error st rc
  Except.ok f2

/-- `FilterBuilder::set_compression_level` (filter.cc lines 115-117): the
int32 argument `val` (value `v`) lives at stack address `vAddr`; the source
calls `set_option(TILEDB_COMPRESSION_LEVEL, &val)`, and inside `set_option`
the pointer parameter lives at `pAddr`. -/
def FilterBuilder.set_compression_level (st : CtxState) (f : EngineFilter)
    (m : Mem) (v : Int) (vAddr pAddr : Nat) : Except String EngineFilter :=
  FilterBuilder.set_option st f ((vAddr, Word.data v) :: m)
    TILEDB_COMPRESSION_LEVEL vAddr pAddr

/-- `Filter::get_option` (filter.cc lines 97-100): passes the caller's out
pointer straight through to the engine. -/
def Filter.get_option (st : CtxState) (f : EngineFilter) (opt : Nat) :
    Except String Int := do
  let (rc, v) := tiledb_filter_get_option f opt
  Context.handle_error st rc
  Except.ok v

/-- `Filter::get_compression_level` (filter.cc lines 33-37). -/
def Filter.get_compression_level (st : CtxState) (f : EngineFilter) :
    Except String Int :=
  Filter.get_option st f TILEDB_COMPRESSION_LEVEL

/-! ### Helper lemmas -/

theorem except_bind_ok {α β : Type} (a : α) (f : α → Except String β) :
    (Except.ok a >>= f) = f a := rfl

theorem except_bind_error {α β : Type} (e : String) (f : α → Except String β) :
    ((Except.error e : Except String α) >>= f) = Except.error e := rfl

theorem SchemaHeap.get_put (h : SchemaHeap) (id : Nat) (s : EngineSchema) :
    (h.put id s).get id = some s := by
  simp [SchemaHeap.get, SchemaHeap.put, List.lookup]

theorem ConfigState.lookup_insert (cfg : ConfigState) (key val : String) :
    (cfg.insert key val).params.lookup key = some val := by
  simp [ConfigState.insert, List.lookup]

/-! ### Claims -/

/-- C2: `Context::handle_error` returns normally exactly on the success
status code, and on every non-success status code it raises an error whose
message is fetched from the Context's last-error state at that moment. -/
theorem C2_handle_error_contract (st : CtxState) (rc : Int) :
    (Context.handle_error st rc = Except.ok () ↔ rc = TILEDB_OK) ∧
    (rc ≠ TILEDB_OK →
      Context.handle_error st rc =
        Except.error (Context.get_last_error_message st)) := by
  refine ⟨⟨fun h => ?_, fun h => ?_⟩, fun h => ?_⟩
  · by_contra hne
    simp [Context.handle_error, hne] at h
  · simp [Context.handle_error, h]
  · simp [Context.handle_error, h]

/-- Witness for C2 at a concrete context and non-success status code. -/
theorem C2_handle_error_contract_witness :
    (Context.handle_error ⟨some "boom"⟩ TILEDB_ERR = Except.ok () ↔
      TILEDB_ERR = TILEDB_OK) ∧
    (TILEDB_ERR ≠ TILEDB_OK →
      Context.handle_error ⟨some "boom"⟩ TILEDB_ERR =
        Except.error (Context.get_last_error_message ⟨some "boom"⟩)) :=
  C2_handle_error_contract ⟨some "boom"⟩ TILEDB_ERR

/-- C8: when `Config::set(key, value)` succeeds, an immediate
`Config::get(key)` on the resulting config returns exactly the value that was
set. -/
theorem C8_config_set_get_roundtrip (cfg cfg2 : ConfigState)
    (key val : String) (h : Config.set cfg key val = Except.ok cfg2) :
    Config.get cfg2 key = Except.ok val := by
  by_cases hbad : key ∈ cfg.badKeys
  · simp [Config.set, tiledb_config_set, hbad, check_config_error] at h
  · simp [Config.set, tiledb_config_set, hbad, check_config_error] at h
    subst h
    have hbad2 : key ∉ (cfg.insert key val).badKeys := by
      simpa [ConfigState.insert] using hbad
    simp [Config.get, tiledb_config_get, hbad2,
      ConfigState.lookup_insert, check_config_error]

/-- Witness for C8: setting then getting a concrete key returns the set
value. -/
theorem C8_config_set_get_roundtrip_witness :
    Config.get (ConfigState.insert ⟨[], []⟩ "sm.tile_cache_size" "10000000")
        "sm.tile_cache_size" =
      Except.ok "10000000" :=
  C8_config_set_get_roundtrip ⟨[], []⟩ _ "sm.tile_cache_size" "10000000" rfl

/-- C10: `Config::contains` never raises: it answers from the nullness of the
value returned by the engine lookup alone, ignoring the out-of-band error
object, so a lookup that errors is reported as absent while `Config::get`
raises on it. -/
theorem C10_contains_never_raises (cfg : ConfigState) (key : String) :
    Config.contains cfg key =
      Except.ok (tiledb_config_get cfg key).1.isSome ∧
    ((tiledb_config_get cfg key).2.isSome →
      Config.contains cfg key = Except.ok false ∧
      ∃ e, Config.get cfg key = Except.error e) := by
  constructor
  · rcases hg : tiledb_config_get cfg key with ⟨v, e⟩
    simp [Config.contains, hg]
  · intro herr
    by_cases hbad : key ∈ cfg.badKeys
    · refine ⟨?_, ?_⟩
      · simp [Config.contains, tiledb_config_get, hbad]
      · exact ⟨"Config Error: " ++ ("Invalid parameter " ++ key),
          by simp [Config.get, tiledb_config_get, hbad, check_config_error]⟩
    · simp [tiledb_config_get, hbad] at herr

/-- Witness for C10 at a concrete config whose engine lookup errors on the
key. -/
theorem C10_contains_never_raises_witness :
    Config.contains ⟨[], ["bad.key"]⟩ "bad.key" =
      Except.ok (tiledb_config_get ⟨[], ["bad.key"]⟩ "bad.key").1.isSome ∧
    ((tiledb_config_get ⟨[], ["bad.key"]⟩ "bad.key").2.isSome →
      Config.contains ⟨[], ["bad.key"]⟩ "bad.key" = Except.ok false ∧
      ∃ e, Config.get ⟨[], ["bad.key"]⟩ "bad.key" = Except.error e) :=
  C10_contains_never_raises ⟨[], ["bad.key"]⟩ "bad.key"

/-- C4: `SchemaBuilder::build()` always runs the engine's schema check before
returning: a returned Schema implies the check reported success, and when the
check must fail (no Domain set) `build()` raises and returns no Schema. -/
theorem C4_build_checks_schema (st : CtxState) (h : SchemaHeap)
    (b : SchemaBuilder) :
    (∀ s, SchemaBuilder.build st h b = Except.ok s →
      tiledb_array_schema_check h b.handle = TILEDB_OK ∧
        s.handle = b.handle) ∧
    (∀ es, SchemaHeap.get h b.handle = some es → es.hasDomain = false →
      SchemaBuilder.build st h b =
        Except.error (Context.get_last_error_message st)) := by
  constructor
  · intro s hs
    by_cases hc : tiledb_array_schema_check h b.handle = TILEDB_OK
    · refine ⟨hc, ?_⟩
      simp [SchemaBuilder.build, Context.handle_error, hc,
        except_bind_ok] at hs
      simp [← hs]
    · simp [SchemaBuilder.build, Context.handle_error, hc,
        except_bind_error] at hs
  · intro es hes hdom
    have hc : tiledb_array_schema_check h b.handle = TILEDB_ERR := by
      simp [tiledb_array_schema_check, hes, hdom]
    simp [SchemaBuilder.build, Context.handle_error, hc, TILEDB_ERR,
      TILEDB_OK, except_bind_error]

def schemaNoDomain : EngineSchema :=
  { hasDomain := false, capacity := 10000, allowsDups := false,
    cellOrder := 0, tileOrder := 0, attributes := [1], enumerations := [],
    coordsFilters := 0, offsetsFilters := 0, validityFilters := 0 }

def schemaWithDomain : EngineSchema :=
  { schemaNoDomain with hasDomain := true }

def heapNoDomain : SchemaHeap := ⟨[(0, schemaNoDomain)]⟩

def heapWithDomain : SchemaHeap := ⟨[(0, schemaWithDomain)]⟩

/-- Witness for C4: on a schema with a domain the returned view carries the
checked handle; on a schema without a domain `build()` raises. -/
theorem C4_build_checks_schema_witness :
    (tiledb_array_schema_check heapWithDomain (SchemaBuilder.mk 0).handle =
        TILEDB_OK ∧
      (Schema.mk 0).handle = (SchemaBuilder.mk 0).handle) ∧
    SchemaBuilder.build ⟨some "schema check failed"⟩ heapNoDomain ⟨0⟩ =
      Except.error
        (Context.get_last_error_message ⟨some "schema check failed"⟩) :=
  ⟨(C4_build_checks_schema ⟨some "schema check failed"⟩ heapWithDomain
      ⟨0⟩).1 ⟨0⟩ rfl,
   (C4_build_checks_schema ⟨some "schema check failed"⟩ heapNoDomain
      ⟨0⟩).2 schemaNoDomain rfl rfl⟩

/-- C3 counterexample: with the capacity-10000 schema below, `build()`
returns a Schema view, a subsequent `SchemaBuilder::set_capacity(42)`
succeeds, and the capacity observable through the previously returned view
changes from 10000 to 42 — because `build()` (schema.cc line 168) hands the
view the builder's own schema pointer. -/
theorem C3_built_schema_mutable_counterexample :
    SchemaBuilder.build ⟨none⟩ heapWithDomain ⟨0⟩ = Except.ok ⟨0⟩ ∧
    SchemaBuilder.set_capacity ⟨none⟩ heapWithDomain ⟨0⟩ 42 =
      Except.ok (SchemaHeap.put heapWithDomain 0
        { schemaWithDomain with capacity := 42 }) ∧
    Schema.capacity ⟨none⟩ heapWithDomain ⟨0⟩ = Except.ok 10000 ∧
    Schema.capacity ⟨none⟩
        (SchemaHeap.put heapWithDomain 0
          { schemaWithDomain with capacity := 42 }) ⟨0⟩ =
      Except.ok 42 ∧
    Schema.capacity ⟨none⟩
        (SchemaHeap.put heapWithDomain 0
          { schemaWithDomain with capacity := 42 }) ⟨0⟩ ≠
      Schema.capacity ⟨none⟩ heapWithDomain ⟨0⟩ := by
  refine ⟨rfl, rfl, rfl, rfl, ?_⟩
  have h42 : Schema.capacity ⟨none⟩
      (SchemaHeap.put heapWithDomain 0
        { schemaWithDomain with capacity := 42 }) ⟨0⟩ = Except.ok 42 := rfl
  have h10000 : Schema.capacity ⟨none⟩ heapWithDomain ⟨0⟩ =
      Except.ok 10000 := rfl
  rw [h42, h10000]
  simp

/-- C3 amended: the Schema returned by `build()` aliases the builder's
underlying schema handle, so a builder setter that succeeds after `build()`
is observable through the previously returned view: after
`set_capacity(cap)` the view's capacity reads `cap`. -/
theorem C3_amended_builder_aliases_view (st : CtxState) (h h2 : SchemaHeap)
    (b : SchemaBuilder) (s : Schema) (cap : Nat)
    (hb : SchemaBuilder.build st h b = Except.ok s)
    (hc : SchemaBuilder.set_capacity st h b cap = Except.ok h2) :
    s.handle = b.handle ∧ Schema.capacity st h2 s = Except.ok cap := by
  have hs : s.handle = b.handle := by
    by_cases hchk : tiledb_array_schema_check h b.handle = TILEDB_OK
    · simp [SchemaBuilder.build, Context.handle_error, hchk,
        except_bind_ok] at hb
      simp [← hb]
    · simp [SchemaBuilder.build, Context.handle_error, hchk,
        except_bind_error] at hb
  refine ⟨hs, ?_⟩
  rcases hes : SchemaHeap.get h b.handle with _ | es
  · simp [SchemaBuilder.set_capacity, tiledb_array_schema_set_capacity,
      engineSchemaUpdate, hes, Context.handle_error, TILEDB_ERR, TILEDB_OK,
      except_bind_error] at hc
  · simp [SchemaBuilder.set_capacity, tiledb_array_schema_set_capacity,
      engineSchemaUpdate, hes, Context.handle_error, except_bind_ok] at hc
    subst hc
    simp [Schema.capacity, tiledb_array_schema_get_capacity, hs,
      SchemaHeap.get_put, Context.handle_error, except_bind_ok]

/-- Witness for the C3 amended theorem at the concrete schema heap. -/
theorem C3_amended_builder_aliases_view_witness :
    (Schema.mk 0).handle = (SchemaBuilder.mk 0).handle ∧
    Schema.capacity ⟨none⟩
        (SchemaHeap.put heapWithDomain 0
          { schemaWithDomain with capacity := 42 }) ⟨0⟩ =
      Except.ok 42 :=
  C3_amended_builder_aliases_view ⟨none⟩ heapWithDomain _ ⟨0⟩ ⟨0⟩ 42 rfl rfl

/-- C1, evaluated at the failing input (field "a", offsets buffer `[0, 4]`,
validity buffer `[1]`): `Query::set_offsets_buffer` and
`Query::set_validity_buffer` invoke the engine's data-buffer entry point
(query.cc lines 99 and 113), so the field's data slot is overwritten while
its offsets and validity slots stay unbound; the dedicated engine entry
points would have bound the offsets and validity slots instead. -/
theorem C1_offsets_validity_misforwarded :
    Query.set_offsets_buffer ⟨none⟩ ⟨[]⟩ ⟨[]⟩ "a" ⟨[0, 4]⟩ =
      Except.ok (⟨[("a", ⟨0, 2, 0⟩)]⟩,
        ⟨[("a", ⟨some ⟨[0, 4]⟩, none, none⟩)]⟩) ∧
    Query.set_validity_buffer ⟨none⟩ ⟨[]⟩ ⟨[]⟩ "a" ⟨[1]⟩ =
      Except.ok (⟨[("a", ⟨0, 0, 1⟩)]⟩,
        ⟨[("a", ⟨some ⟨[1]⟩, none, none⟩)]⟩) ∧
    (tiledb_query_set_offsets_buffer ⟨[]⟩ "a" ⟨[0, 4]⟩).1 =
      ⟨[("a", ⟨none, some ⟨[0, 4]⟩, none⟩)]⟩ ∧
    (tiledb_query_set_validity_buffer ⟨[]⟩ "a" ⟨[1]⟩).1 =
      ⟨[("a", ⟨none, none, some ⟨[1]⟩⟩)]⟩ :=
  ⟨rfl, rfl, rfl, rfl⟩

def neverWrittenDim : EngineDim :=
  { name := "d", datatype := 1, written := false, lo := 0, hi := 0,
    varLo := [], varHi := [] }

def neverWrittenArr : EngineArray := ⟨[neverWrittenDim]⟩

def dimBuf : TypedBuffer := ⟨1, []⟩

/-- C5, evaluated on a one-dimension array to which no data was ever
written: the fixed-size non-empty-domain wrappers return normally with the
emptiness flag `true`, but the variable-size wrappers return normally with
`false` for the same dimension (the early `return false` of array.cc lines
202-204 and 248-250), so the two variants disagree in polarity. -/
theorem C5_var_nonempty_domain_polarity :
    Array.non_empty_domain_from_index ⟨none⟩ neverWrittenArr 0 dimBuf =
      Except.ok (⟨1, [0, 0]⟩, true) ∧
    Array.non_empty_domain_from_name ⟨none⟩ neverWrittenArr "d" dimBuf =
      Except.ok (⟨1, [0, 0]⟩, true) ∧
    Array.non_empty_domain_var_from_index ⟨none⟩ neverWrittenArr 0
        dimBuf dimBuf =
      Except.ok (dimBuf, dimBuf, false) ∧
    Array.non_empty_domain_var_from_name ⟨none⟩ neverWrittenArr "d"
        dimBuf dimBuf =
      Except.ok (dimBuf, dimBuf, false) :=
  ⟨rfl, rfl, rfl, rfl⟩

/-- C6: `Query::submit` raises exactly when the engine call reports a
non-success status code; `to_rs_query_status` maps the engine's Incomplete
status to the distinct `Incomplete` value without raising; and a submit whose
read buffers are too small (engine reports success with status Incomplete)
returns normally and then reports status `Incomplete`. -/
theorem C6_incomplete_is_not_an_error (st : CtxState) (rc : Int) :
    (Query.submit st rc = Except.ok () ↔ rc = TILEDB_OK) ∧
    to_rs_query_status TILEDB_INCOMPLETE = Except.ok QueryStatus.Incomplete ∧
    QueryStatus.Incomplete ≠ QueryStatus.Failed ∧
    Query.submit st tiledb_query_submit_undersized.1 = Except.ok () ∧
    Query.status st TILEDB_OK tiledb_query_submit_undersized.2 =
      Except.ok QueryStatus.Incomplete := by
  refine ⟨⟨fun h => ?_, fun h => ?_⟩, rfl, by decide, rfl, rfl⟩
  · by_contra hne
    simp [Query.submit, Context.handle_error, hne] at h
  · simp [Query.submit, Context.handle_error, h]

/-- Witness for C6 at a concrete context and status code. -/
theorem C6_incomplete_is_not_an_error_witness :
    (Query.submit ⟨some "io error"⟩ TILEDB_ERR = Except.ok () ↔
      TILEDB_ERR = TILEDB_OK) ∧
    to_rs_query_status TILEDB_INCOMPLETE = Except.ok QueryStatus.Incomplete ∧
    QueryStatus.Incomplete ≠ QueryStatus.Failed ∧
    Query.submit ⟨some "io error"⟩ tiledb_query_submit_undersized.1 =
      Except.ok () ∧
    Query.status ⟨some "io error"⟩ TILEDB_OK
        tiledb_query_submit_undersized.2 =
      Except.ok QueryStatus.Incomplete :=
  C6_incomplete_is_not_an_error ⟨some "io error"⟩ TILEDB_ERR

/-- C7, evaluated at the failing input `["f1"]`: each list-taking wrapper
hands the engine three entries — a null pointer, a pointer to an empty
string, and only then the given URI — with count 3, because the vectors are
pre-sized to the input length before `rust_to_cpp` appends (array.cc lines
396-408, 410-423, 445-454, 481-492); the claim expects exactly `["f1"]` with
count 1. -/
theorem C7_uri_lists_forwarded_with_padding :
    ArrayContext.consolidate_list_forwarded ["f1"] =
      [none, some "", some "f1"] ∧
    ArrayContext.consolidate_list_with_config_forwarded ["f1"] =
      [none, some "", some "f1"] ∧
    ArrayContext.delete_fragments_list_forwarded ["f1"] =
      [none, some "", some "f1"] ∧
    (ArrayContext.consolidate_list_forwarded ["f1"]).length = 3 ∧
    ArrayContext.consolidate_list_forwarded ["f1"] ≠ ["f1"].map some := by
  refine ⟨rfl, rfl, rfl, rfl, ?_⟩
  intro h
  have hlen := congrArg List.length h
  simp [ArrayContext.consolidate_list_forwarded, ArrayContext.rust_to_cpp] at hlen

def filter0 : EngineFilter := ⟨0, []⟩

/-- C9, evaluated at the failing input (`set_compression_level(5)` with the
int32 temporary at address 1000 and `set_option`'s pointer parameter at
address 2000): the engine's set-option entry point receives the address of
the pointer parameter (filter.cc line 159), reads the stored address 1000 as
the option value, and `get_compression_level` on the built filter returns
1000 rather than the 5 that was passed; delivering the caller's pointer
itself would have stored 5. -/
theorem C9_set_option_wrong_indirection :
    FilterBuilder.set_compression_level ⟨none⟩ filter0 [] 5 1000 2000 =
      Except.ok ⟨0, [(TILEDB_COMPRESSION_LEVEL, 1000)]⟩ ∧
    Filter.get_compression_level ⟨none⟩
        ⟨0, [(TILEDB_COMPRESSION_LEVEL, 1000)]⟩ =
      Except.ok 1000 ∧
    (1000 : Int) ≠ 5 ∧
    (tiledb_filter_set_option filter0 [(1000, Word.data 5)]
        TILEDB_COMPRESSION_LEVEL 1000).1 =
      ⟨0, [(TILEDB_COMPRESSION_LEVEL, 5)]⟩ :=
  ⟨rfl, rfl, by decide, rfl⟩

end TileDBRs
